import Mathlib

/-!
Shallow embedding of the `rust-chat` domain layer
(`src/chat-service/src/internal/domain/entity/{model,message,chat}.rs`).

Rust machine types are embedded as follows: `usize`/`u32` as `Nat`
(the code only stores, adds and compares them), `f32` as its 32-bit
pattern (the code never computes with floats, only stores and copies
them), `Uuid` and `chrono::DateTime<Utc>` as wrappers the code only
stores and compares, `String`/`&str` as `String`, `Vec` as `List`.
`std::io::Error` is embedded as its observable content: an error kind
plus the message string. The external tokenizer
(`tiktoken_rs::get_completion_max_tokens`) is an external collaborator
and is passed to `Message.new` as a function parameter returning
`Except`.  Rust methods taking `&mut self` become functions returning
the updated `Chat` (paired with the `Result` when the method returns
one); methods taking `&self` are pure functions.
-/

namespace RustChat

/-- Embeds `uuid::Uuid`: an opaque identifier, only stored and compared. -/
structure Uuid where
  val : Nat
deriving DecidableEq, Repr

/-- Embeds Rust `f32` by its 32-bit pattern; the source only stores and
copies these fields, never computes with them. -/
structure F32 where
  bits : Nat
deriving DecidableEq, Repr

/-- Embeds `chrono::DateTime<chrono::Utc>`: the source only stores and
order-compares timestamps. -/
structure DateTime where
  timestamp : Int
deriving DecidableEq, Repr

/-- Embeds `std::io::ErrorKind`; the source only ever uses `Other`. -/
inductive IoErrorKind where
  | other
deriving DecidableEq, Repr

/-- Embeds the observable content of `std::io::Error`: its kind and its
message string. -/
structure IoError where
  kind : IoErrorKind
  message : String
deriving DecidableEq, Repr

/-- Embeds `std::io::Error::new(kind, message)`. -/
def IoError.new (kind : IoErrorKind) (message : String) : IoError :=
  { kind := kind, message := message }

/-- Embeds `entity::model::Model` (model.rs lines 1-4). -/
structure Model where
  name : String
  max_tokens : Nat
deriving DecidableEq, Repr

/-- Embeds `Model::new` (model.rs lines 7-9). -/
def Model.new (name : String) (max_tokens : Nat) : Model :=
  { name := name, max_tokens := max_tokens }

/-- Embeds `entity::message::Message` (message.rs lines 6-14).  The Rust
field `model: &'a Model` is a shared immutable reference; it is embedded
by value since the referent is immutable. -/
structure Message where
  id : Uuid
  role : String
  content : String
  tokens : Nat
  model : Model
  created_at : DateTime
deriving DecidableEq, Repr

/-- Embeds `Message::clone` (message.rs lines 18-27): a field-by-field
copy (scalars copied, strings cloned, the `model` reference shared). -/
def Message.clone (m : Message) : Message :=
  { id := m.id
    role := m.role
    content := m.content
    tokens := m.tokens
    model := m.model
    created_at := m.created_at }

/-- Embeds `Message::new` (message.rs lines 29-57).  The external call
`tiktoken_rs::get_completion_max_tokens(&model.name, content)` is
abstracted as the parameter `tok`; its Rust error payload is
irrelevant to the source (matched with `Err(_)`) so it is `Unit`. -/
def Message.new (tok : String → String → Except Unit Nat)
    (id : Uuid) (role : String) (content : String) (tokens : Nat)
    (model : Model) (created_at : DateTime) : Message :=
  match tok model.name content with
  | Except.ok total_tokens =>
      { id := id, role := role, content := content, tokens := total_tokens
        model := model, created_at := created_at }
  | Except.error _ =>
      { id := id, role := role, content := content, tokens := tokens
        model := model, created_at := created_at }

/-- Embeds `Message::validate` (message.rs lines 83-99).  The clock
collaborator `chrono::Utc::now()` is abstracted as the parameter
`now`. -/
def Message.validate (m : Message) (now : DateTime) : Except String Unit :=
  let valid_role :=
    m.role == "user" || m.role == "system" || m.role == "assistant"
  if !valid_role then
    Except.error "role is invalid"
  else if m.content.isEmpty then
    Except.error "content is empty"
  else if now.timestamp < m.created_at.timestamp then
    Except.error "created_at is invalid"
  else
    Except.ok ()

/-- Embeds `ChatConfig` (chat.rs lines 8-18). -/
structure ChatConfig where
  model : Model
  temperature : F32
  top_p : F32
  n : Nat
  stop : List String
  max_tokens : Nat
  presence_penalty : F32
  frequency_penalty : F32
deriving DecidableEq, Repr

/-- Embeds `Chat` (chat.rs lines 20-29). -/
structure Chat where
  id : Uuid
  user_id : Uuid
  initial_system_message : Message
  messages : List Message
  erased_messages : List Message
  status : String
  token_usage : Nat
  config : ChatConfig
deriving DecidableEq, Repr

/-- Embeds `Chat::new` (chat.rs lines 32-52). -/
def Chat.new (id : Uuid) (user_id : Uuid) (initial_system_message : Message)
    (messages : List Message) (erased_messages : List Message)
    (status : String) (token_usage : Nat) (config : ChatConfig) : Chat :=
  { id := id
    user_id := user_id
    initial_system_message := initial_system_message
    messages := messages
    erased_messages := erased_messages
    status := status
    token_usage := token_usage
    config := config }

/-- Embeds `Chat::validate` (chat.rs lines 55-78), including the
redundant second status check of lines 70-75. -/
def Chat.validate (c : Chat) : Except IoError Unit :=
  if c.status != "active" && c.status != "ended" then
    Except.error (IoError.new IoErrorKind.other "Chat status is invalid")
  else if c.token_usage > c.config.max_tokens then
    Except.error (IoError.new IoErrorKind.other "Chat token usage is invalid")
  else if c.status != "ended" && c.status != "active" then
    Except.error (IoError.new IoErrorKind.other "Chat status is invalid")
  else
    Except.ok ()

/-- Embeds `Chat::refresh_token_usage` (chat.rs lines 100-105):
`self.messages.iter().fold(0, |acc, message| acc + message.tokens)`. -/
def Chat.refresh_token_usage (c : Chat) : Chat :=
  { c with
    token_usage := c.messages.foldl (fun acc message => acc + message.tokens) 0 }

/-- Embeds `Chat::add_message` (chat.rs lines 81-97).  The Rust method
mutates `self` and returns a `Result`; the embedding returns the
`Result` paired with the updated chat. -/
def Chat.add_message (c : Chat) (message : Message) :
    Except IoError Unit × Chat :=
  if c.status == "ended" then
    (Except.error (IoError.new IoErrorKind.other "Chat has already ended"), c)
  else if c.config.max_tokens ≥ message.tokens + c.token_usage then
    (Except.ok (),
      Chat.refresh_token_usage
        { c with messages := c.messages ++ [message.clone] })
  else
    (Except.ok (),
      { c with erased_messages := c.erased_messages ++ [message.clone] })

/-- Embeds `Chat::get_messages` (chat.rs lines 108-110):
`self.messages.iter().map(|msg| msg.clone()).collect()`. -/
def Chat.get_messages (c : Chat) : List Message :=
  c.messages.map (fun msg => msg.clone)

/-- Embeds `Chat::count_messages` (chat.rs lines 112-114). -/
def Chat.count_messages (c : Chat) : Nat :=
  c.messages.length

/-- Embeds `Chat::end` (chat.rs lines 117-119); `end` is a Lean keyword,
hence the escaped name. -/
def Chat.«end» (c : Chat) : Chat :=
  { c with status := "ended" }

/-- The token sum the source computes in `refresh_token_usage`:
`fold(0, |acc, message| acc + message.tokens)` over a message list. -/
def tokenSum (ms : List Message) : Nat :=
  ms.foldl (fun acc message => acc + message.tokens) 0

/-- Folds a sequence of `add_message` calls, discarding each call's
`Result` (the caller-side view of repeatedly submitting messages). -/
def Chat.add_messages (c : Chat) (ms : List Message) : Chat :=
  ms.foldl (fun st m => (st.add_message m).2) c

/-! Sample values used by witnesses, mirroring the repository's own test
fixtures (`gpt-3.5-turbo`, budget 5000, a 4083-token message). -/

def sampleModel : Model := Model.new "gpt-3.5-turbo" 4096

def sampleConfig : ChatConfig :=
  { model := sampleModel
    temperature := ⟨0⟩
    top_p := ⟨0⟩
    n := 0
    stop := []
    max_tokens := 5000
    presence_penalty := ⟨0⟩
    frequency_penalty := ⟨0⟩ }

def systemMessage : Message :=
  { id := ⟨0⟩, role := "system", content := "Hello, I am the system."
    tokens := 0, model := sampleModel, created_at := ⟨0⟩ }

def bigMessage : Message :=
  { id := ⟨1⟩, role := "user", content := "Hello, I am the user."
    tokens := 4083, model := sampleModel, created_at := ⟨1⟩ }

def freshChat : Chat :=
  { id := ⟨10⟩, user_id := ⟨11⟩, initial_system_message := systemMessage
    messages := [], erased_messages := [], status := "active"
    token_usage := 0, config := sampleConfig }

def endedChat : Chat :=
  { freshChat with status := "ended" }

def invalidStatusChat : Chat :=
  { freshChat with status := "invalid" }

/-- A chat whose stored `token_usage` (10) disagrees with the true sum
of its (empty) message list, over a budget of 5. -/
def skewedChat : Chat :=
  { freshChat with
    token_usage := 10
    config := { sampleConfig with max_tokens := 5 } }

def probeMessage : Message :=
  { id := ⟨2⟩, role := "user", content := "hi"
    tokens := 1, model := sampleModel, created_at := ⟨2⟩ }

def badRoleMessage : Message :=
  { id := ⟨3⟩, role := "", content := "Hello, world!"
    tokens := 7, model := sampleModel, created_at := ⟨3⟩ }

/-! Helper lemmas shared by the claim theorems. -/

/-- `Message::clone` copies every field, so in the value embedding it is
the identity. -/
theorem Message.clone_eq (m : Message) : m.clone = m := rfl

/-- The fold of `refresh_token_usage` over an extended list: appending
one message adds exactly its token count. -/
theorem tokenSum_append_singleton (xs : List Message) (m : Message) :
    tokenSum (xs ++ [m]) = tokenSum xs + m.tokens := by
  simp [tokenSum, List.foldl_append]

/-- `add_message` never touches the configuration. -/
theorem add_message_config (c : Chat) (m : Message) :
    ((c.add_message m).2).config = c.config := by
  unfold Chat.add_message
  split
  · rfl
  · split <;> rfl

/-- `add_message` never touches the status. -/
theorem add_message_status (c : Chat) (m : Message) :
    ((c.add_message m).2).status = c.status := by
  unfold Chat.add_message
  split
  · rfl
  · split <;> rfl

/-- On a non-ended chat, an over-budget message goes, cloned, to the end
of `erased_messages` and nothing else changes. -/
theorem add_message_rejected_eq (c : Chat) (m : Message)
    (h : c.status ≠ "ended")
    (hm : c.config.max_tokens < m.tokens + c.token_usage) :
    (c.add_message m).2 =
      { c with erased_messages := c.erased_messages ++ [m] } := by
  unfold Chat.add_message
  simp [h, Nat.not_le.mpr hm, Message.clone_eq]

/-- On a non-ended chat, a within-budget message goes, cloned, to the
end of `messages` and the usage counter is refreshed. -/
theorem add_message_accepted_eq (c : Chat) (m : Message)
    (h : c.status ≠ "ended")
    (hm : m.tokens + c.token_usage ≤ c.config.max_tokens) :
    (c.add_message m).2 =
      Chat.refresh_token_usage { c with messages := c.messages ++ [m] } := by
  unfold Chat.add_message
  simp [h, hm, Message.clone_eq]

/-- C1: on a chat whose status is not "ended", `add_message` returns
success and appends the message to exactly one of the two lists: to
`messages` iff `msg.tokens + token_usage ≤ config.max_tokens`, and
otherwise to `erased_messages`, leaving `messages` and `token_usage`
unchanged in that case. -/
theorem add_message_active_spec (c : Chat) (m : Message)
    (h : c.status ≠ "ended") :
    (c.add_message m).1 = Except.ok () ∧
    (m.tokens + c.token_usage ≤ c.config.max_tokens →
      (c.add_message m).2.messages = c.messages ++ [m] ∧
      (c.add_message m).2.erased_messages = c.erased_messages) ∧
    (¬ m.tokens + c.token_usage ≤ c.config.max_tokens →
      (c.add_message m).2.erased_messages = c.erased_messages ++ [m] ∧
      (c.add_message m).2.messages = c.messages ∧
      (c.add_message m).2.token_usage = c.token_usage) := by
  refine ⟨?_, ?_, ?_⟩
  · unfold Chat.add_message
    simp only [beq_iff_eq, h, if_false, ite_false]
    split <;> rfl
  · intro hm
    rw [add_message_accepted_eq c m h hm]
    exact ⟨rfl, rfl⟩
  · intro hm
    rw [add_message_rejected_eq c m h (Nat.not_le.mp hm)]
    exact ⟨rfl, rfl, rfl⟩

/-- Witness for C1 at the repository's own test fixture: budget 5000,
empty history, a 4083-token message is accepted. -/
theorem add_message_active_spec_witness :
    (freshChat.add_message bigMessage).1 = Except.ok () ∧
    (freshChat.add_message bigMessage).2.messages =
      freshChat.messages ++ [bigMessage] :=
  ⟨(add_message_active_spec freshChat bigMessage (by decide)).1,
   ((add_message_active_spec freshChat bigMessage (by decide)).2.1
      (by decide)).1⟩

/-- C4: `Message::new` always returns a message; its `id`, `role`,
`content`, `model` and `created_at` equal the arguments, and `tokens` is
the external tokenizer's result when that call succeeds and the
caller-supplied count when it fails. -/
theorem message_new_spec (tok : String → String → Except Unit Nat)
    (id : Uuid) (role : String) (content : String) (tokens : Nat)
    (model : Model) (created_at : DateTime) :
    ((Message.new tok id role content tokens model created_at).id = id ∧
     (Message.new tok id role content tokens model created_at).role = role ∧
     (Message.new tok id role content tokens model created_at).content
        = content ∧
     (Message.new tok id role content tokens model created_at).model
        = model ∧
     (Message.new tok id role content tokens model created_at).created_at
        = created_at) ∧
    (∀ n, tok model.name content = Except.ok n →
      (Message.new tok id role content tokens model created_at).tokens
        = n) ∧
    (∀ e, tok model.name content = Except.error e →
      (Message.new tok id role content tokens model created_at).tokens
        = tokens) := by
  unfold Message.new
  cases htok : tok model.name content with
  | ok n => simp
  | error e => simp

/-- Witness for C4: a failing tokenizer falls back to the supplied
count. -/
theorem message_new_spec_witness :
    (Message.new (fun _ _ => Except.error ()) ⟨7⟩ "user" "hi" 5
        sampleModel ⟨3⟩).tokens = 5 :=
  (message_new_spec (fun _ _ => Except.error ()) ⟨7⟩ "user" "hi" 5
      sampleModel ⟨3⟩).2.2 () rfl

/-- C7: `refresh_token_usage` sets `token_usage` to the sum of the token
counts of `messages`, changes no other field, and doing it twice equals
doing it once. -/
theorem refresh_token_usage_spec (c : Chat) :
    c.refresh_token_usage.token_usage = tokenSum c.messages ∧
    c.refresh_token_usage.id = c.id ∧
    c.refresh_token_usage.user_id = c.user_id ∧
    c.refresh_token_usage.initial_system_message
      = c.initial_system_message ∧
    c.refresh_token_usage.messages = c.messages ∧
    c.refresh_token_usage.erased_messages = c.erased_messages ∧
    c.refresh_token_usage.status = c.status ∧
    c.refresh_token_usage.config = c.config ∧
    c.refresh_token_usage.refresh_token_usage = c.refresh_token_usage :=
  ⟨rfl, rfl, rfl, rfl, rfl, rfl, rfl, rfl, rfl⟩

/-- C8: `get_messages` returns, position by position in insertion
order, value-equal clones of the entries of the internal `messages`
list — with the value-identity of `clone`, the list itself; being a
pure function of the chat, it leaves the chat unchanged. -/
theorem get_messages_spec (c : Chat) :
    (∀ i : Nat, c.get_messages[i]? = (c.messages[i]?).map Message.clone) ∧
    c.get_messages = c.messages := by
  constructor
  · intro i
    simp [Chat.get_messages]
  · simp [Chat.get_messages, Message.clone_eq]

/-- C9: `Chat::new` performs no validation and stores every argument
verbatim, whatever status or token usage is supplied. -/
theorem chat_new_spec (id user_id : Uuid) (initial_system_message : Message)
    (messages erased_messages : List Message) (status : String)
    (token_usage : Nat) (config : ChatConfig) :
    (Chat.new id user_id initial_system_message messages erased_messages
        status token_usage config).id = id ∧
    (Chat.new id user_id initial_system_message messages erased_messages
        status token_usage config).user_id = user_id ∧
    (Chat.new id user_id initial_system_message messages erased_messages
        status token_usage config).initial_system_message
      = initial_system_message ∧
    (Chat.new id user_id initial_system_message messages erased_messages
        status token_usage config).messages = messages ∧
    (Chat.new id user_id initial_system_message messages erased_messages
        status token_usage config).erased_messages = erased_messages ∧
    (Chat.new id user_id initial_system_message messages erased_messages
        status token_usage config).status = status ∧
    (Chat.new id user_id initial_system_message messages erased_messages
        status token_usage config).token_usage = token_usage ∧
    (Chat.new id user_id initial_system_message messages erased_messages
        status token_usage config).config = config :=
  ⟨rfl, rfl, rfl, rfl, rfl, rfl, rfl, rfl⟩

/-- C3: on a chat whose status is "ended" (the status `end()` produces),
every `add_message` call fails with the "Chat has already ended" error
and leaves every field of the chat unchanged, for any number of
calls. -/
theorem add_message_ended_locked (c : Chat) (h : c.status = "ended") :
    (∀ m : Message, c.add_message m =
      (Except.error (IoError.new IoErrorKind.other "Chat has already ended"),
        c)) ∧
    (∀ ms : List Message, c.add_messages ms = c) ∧
    (∀ c₀ : Chat, c₀.«end».status = "ended") := by
  have hone : ∀ m : Message, c.add_message m =
      (Except.error (IoError.new IoErrorKind.other "Chat has already ended"),
        c) := by
    intro m
    unfold Chat.add_message
    simp [h]
  refine ⟨hone, ?_, fun _ => rfl⟩
  intro ms
  induction ms with
  | nil => rfl
  | cons m ms ih =>
    show Chat.add_messages (c.add_message m).2 ms = c
    rw [hone m]
    exact ih

/-- Witness for C3: two submissions to an ended chat leave it intact. -/
theorem add_message_ended_locked_witness :
    endedChat.add_messages [bigMessage, bigMessage] = endedChat :=
  (add_message_ended_locked endedChat rfl).2.1 [bigMessage, bigMessage]

/-- C5: `Chat::validate` fails with the "Chat status is invalid" error
when the status is neither "active" nor "ended" (this check wins over
the usage check); otherwise it fails with the "Chat token usage is
invalid" error when `token_usage > config.max_tokens`; otherwise it
succeeds.  It reads the chat without returning a modified one. -/
theorem chat_validate_spec (c : Chat) :
    (c.status ≠ "active" → c.status ≠ "ended" →
      c.validate = Except.error
        (IoError.new IoErrorKind.other "Chat status is invalid")) ∧
    ((c.status = "active" ∨ c.status = "ended") →
      c.config.max_tokens < c.token_usage →
      c.validate = Except.error
        (IoError.new IoErrorKind.other "Chat token usage is invalid")) ∧
    ((c.status = "active" ∨ c.status = "ended") →
      c.token_usage ≤ c.config.max_tokens →
      c.validate = Except.ok ()) := by
  refine ⟨?_, ?_, ?_⟩
  · intro h1 h2
    unfold Chat.validate
    simp [h1, h2]
  · rintro (h | h) hlt <;> unfold Chat.validate <;> simp [h, hlt]
  · rintro (h | h) hle <;> unfold Chat.validate <;>
      simp [h, Nat.not_lt.mpr hle]

/-- Witness for C5 at the repository's `test_invalid_chat` fixture. -/
theorem chat_validate_spec_witness :
    invalidStatusChat.validate = Except.error
      (IoError.new IoErrorKind.other "Chat status is invalid") :=
  (chat_validate_spec invalidStatusChat).1 (by decide) (by decide)

/-- A Rust `String::is_empty` is a zero-length check; the embedding's
`String.isEmpty` agrees with `length = 0`. -/
theorem isEmpty_iff_length (s : String) :
    s.isEmpty = true ↔ s.length = 0 := by
  rw [String.isEmpty_iff]
  constructor
  · intro h
    simp [h]
  · intro h
    exact String.ext (List.length_eq_zero.mp h)

/-- C6: `Message::validate` checks role, then content, then timestamp,
the first failing check winning, with pairwise distinct errors: "role
is invalid" unless the role is system, user or assistant; "content is
empty" when the content has zero length; "created_at is invalid" when
`created_at` is strictly later than the clock's current time; success
otherwise. -/
theorem message_validate_spec (m : Message) (now : DateTime) :
    ((m.role ≠ "system" ∧ m.role ≠ "user" ∧ m.role ≠ "assistant") →
      m.validate now = Except.error "role is invalid") ∧
    ((m.role = "system" ∨ m.role = "user" ∨ m.role = "assistant") →
      m.content.length = 0 →
      m.validate now = Except.error "content is empty") ∧
    ((m.role = "system" ∨ m.role = "user" ∨ m.role = "assistant") →
      m.content.length ≠ 0 →
      now.timestamp < m.created_at.timestamp →
      m.validate now = Except.error "created_at is invalid") ∧
    ((m.role = "system" ∨ m.role = "user" ∨ m.role = "assistant") →
      m.content.length ≠ 0 →
      m.created_at.timestamp ≤ now.timestamp →
      m.validate now = Except.ok ()) ∧
    (("role is invalid" : String) ≠ "content is empty" ∧
     ("role is invalid" : String) ≠ "created_at is invalid" ∧
     ("content is empty" : String) ≠ "created_at is invalid") := by
  refine ⟨?_, ?_, ?_, ?_, by decide, by decide, by decide⟩
  · intro h
    unfold Message.validate
    simp [h.1, h.2.1, h.2.2]
  · intro hrole hlen
    have he : m.content.isEmpty = true := (isEmpty_iff_length _).mpr hlen
    rcases hrole with h | h | h <;> unfold Message.validate <;> simp [h, he]
  · intro hrole hlen htime
    have he : m.content.isEmpty = false :=
      Bool.eq_false_iff.mpr fun hh => hlen ((isEmpty_iff_length _).mp hh)
    rcases hrole with h | h | h <;> unfold Message.validate <;>
      simp [h, he, htime]
  · intro hrole hlen hle
    have he : m.content.isEmpty = false :=
      Bool.eq_false_iff.mpr fun hh => hlen ((isEmpty_iff_length _).mp hh)
    have ht : ¬ now.timestamp < m.created_at.timestamp := not_lt.mpr hle
    rcases hrole with h | h | h <;> unfold Message.validate <;>
      simp [h, he, ht]

/-- Witness for C6: an empty role is rejected as invalid. -/
theorem message_validate_spec_witness :
    badRoleMessage.validate ⟨100⟩ = Except.error "role is invalid" :=
  (message_validate_spec badRoleMessage ⟨100⟩).1 (by decide)

/-- A fold of `add_message` calls never touches the configuration. -/
theorem add_messages_config (ms : List Message) : ∀ c : Chat,
    (c.add_messages ms).config = c.config := by
  induction ms with
  | nil => intro _; rfl
  | cons m ms ih =>
    intro c
    show (Chat.add_messages (c.add_message m).2 ms).config = c.config
    rw [ih, add_message_config]

/-- One `add_message` step preserves the budget invariant: usage equal
to the sum over `messages` and within the budget. -/
theorem add_message_invariant_step (c : Chat) (m : Message)
    (h1 : c.token_usage = tokenSum c.messages)
    (h2 : c.token_usage ≤ c.config.max_tokens) :
    (c.add_message m).2.token_usage
      = tokenSum (c.add_message m).2.messages ∧
    (c.add_message m).2.token_usage
      ≤ (c.add_message m).2.config.max_tokens := by
  by_cases hst : c.status = "ended"
  · have hc : (c.add_message m).2 = c := by
      unfold Chat.add_message
      simp [hst]
    rw [hc]
    exact ⟨h1, h2⟩
  · by_cases hb : m.tokens + c.token_usage ≤ c.config.max_tokens
    · rw [add_message_accepted_eq c m hst hb]
      refine ⟨rfl, ?_⟩
      show tokenSum (c.messages ++ [m]) ≤ c.config.max_tokens
      rw [tokenSum_append_singleton, ← h1]
      omega
    · rw [add_message_rejected_eq c m hst (Nat.not_le.mp hb)]
      exact ⟨h1, h2⟩

/-- The budget invariant is preserved along any fold of `add_message`
calls. -/
theorem add_messages_invariant (ms : List Message) : ∀ c : Chat,
    c.token_usage = tokenSum c.messages →
    c.token_usage ≤ c.config.max_tokens →
    (c.add_messages ms).token_usage
      = tokenSum (c.add_messages ms).messages ∧
    (c.add_messages ms).token_usage
      ≤ (c.add_messages ms).config.max_tokens := by
  induction ms with
  | nil =>
    intro c h1 h2
    exact ⟨h1, h2⟩
  | cons m ms ih =>
    intro c h1 h2
    have hstep := add_message_invariant_step c m h1 h2
    exact ih (c.add_message m).2 hstep.1 hstep.2

/-- C2: starting from a chat with an empty history and zero usage, after
any sequence of `add_message` calls the stored `token_usage` equals the
sum of the token counts of `messages` and stays within
`config.max_tokens`. -/
theorem budget_invariant (c : Chat) (h1 : c.messages = [])
    (h2 : c.token_usage = 0) (ms : List Message) :
    (c.add_messages ms).token_usage
      = tokenSum (c.add_messages ms).messages ∧
    (c.add_messages ms).token_usage ≤ c.config.max_tokens := by
  have hsum : c.token_usage = tokenSum c.messages := by
    rw [h1, h2]
    rfl
  have hinv := add_messages_invariant ms c hsum
    (by rw [h2]; exact Nat.zero_le _)
  refine ⟨hinv.1, ?_⟩
  rw [← add_messages_config ms c]
  exact hinv.2

/-- Witness for C2 at the repository's test scenario: budget 5000, the
4083-token message submitted twice (accepted, then erased). -/
theorem budget_invariant_witness :
    (freshChat.add_messages [bigMessage, bigMessage]).token_usage
      = tokenSum (freshChat.add_messages [bigMessage, bigMessage]).messages ∧
    (freshChat.add_messages [bigMessage, bigMessage]).token_usage
      ≤ freshChat.config.max_tokens :=
  budget_invariant freshChat rfl rfl [bigMessage, bigMessage]

/-- A run of rejected submissions only grows `erased_messages`. -/
theorem add_messages_rejected (ms : List Message) : ∀ c : Chat,
    c.status ≠ "ended" →
    (∀ m ∈ ms, c.config.max_tokens < m.tokens + c.token_usage) →
    c.add_messages ms
      = { c with erased_messages := c.erased_messages ++ ms } := by
  induction ms with
  | nil =>
    intro c _ _
    simp [Chat.add_messages]
  | cons m ms ih =>
    intro c h hm
    have h1 : (c.add_message m).2 =
        { c with erased_messages := c.erased_messages ++ [m] } :=
      add_message_rejected_eq c m h (hm m (List.mem_cons_self m ms))
    show Chat.add_messages (c.add_message m).2 ms = _
    rw [h1, ih { c with erased_messages := c.erased_messages ++ [m] } h
      (fun x hx => hm x (List.mem_cons_of_mem m hx))]
    simp

/-- C10: the admission decision reads the stored `token_usage`, not the
recomputed sum, and rejection skips the refresh: on a non-ended chat,
any run of rejecting calls leaves `messages` and `token_usage` — hence
any discrepancy between them — intact, while an accepted message makes
`token_usage` the recomputed sum over the new `messages`. -/
theorem admission_uses_stored_usage (c : Chat) (h : c.status ≠ "ended") :
    (∀ ms : List Message,
      (∀ m ∈ ms, c.config.max_tokens < m.tokens + c.token_usage) →
      (c.add_messages ms).messages = c.messages ∧
      (c.add_messages ms).token_usage = c.token_usage) ∧
    (∀ m : Message, m.tokens + c.token_usage ≤ c.config.max_tokens →
      (c.add_message m).2.token_usage
        = tokenSum (c.add_message m).2.messages) := by
  constructor
  · intro ms hm
    rw [add_messages_rejected ms c h hm]
    exact ⟨rfl, rfl⟩
  · intro m hm
    rw [add_message_accepted_eq c m h hm]
    rfl

/-- Witness for C10: a chat with stored usage 10 over budget 5 but an
empty (sum-0) history rejects a 1-token message that the true sum would
admit, twice in a row, keeping the stored usage at 10. -/
theorem admission_uses_stored_usage_witness :
    (skewedChat.add_messages [probeMessage, probeMessage]).messages
      = skewedChat.messages ∧
    (skewedChat.add_messages [probeMessage, probeMessage]).token_usage
      = skewedChat.token_usage ∧
    probeMessage.tokens + tokenSum skewedChat.messages
      ≤ skewedChat.config.max_tokens ∧
    skewedChat.config.max_tokens
      < probeMessage.tokens + skewedChat.token_usage :=
  ⟨((admission_uses_stored_usage skewedChat (by decide)).1
      [probeMessage, probeMessage] (by decide)).1,
   ((admission_uses_stored_usage skewedChat (by decide)).1
      [probeMessage, probeMessage] (by decide)).2,
   by decide, by decide⟩

end RustChat
